import Mathlib

/-!
Shallow embedding of `src/app/main.py` (BPMorph): a batch BPM-changing
pipeline.  Pure control flow, argument validation, filename derivation and
filesystem effects are translated directly from the source; the external
collaborators (pydub decoding, librosa beat tracking, the rubberband binary,
mutagen ID3 reads) are opaque parameters gathered in an `Env` record, exactly
as the spec treats them (black boxes).  Floats are modelled as rationals,
Python truthiness of optional numeric arguments is modelled explicitly, and
on-disk state is an association list from paths to file records.
-/

namespace BPMorph

/-- Python-level exceptions that the pipeline can raise. -/
inductive PyErr where
  | valueError (msg : String)
  | fileNotFoundError (path : String)
  | calledProcessError (exitCode : Nat)
  | decodeError
  | id3Error
deriving DecidableEq

/-- Python truthiness of an optional float argument: `None` and `0.0` are
falsy, every other float is truthy. -/
def truthy : Option ℚ → Bool
  | none => false
  | some v => if v = 0 then false else true

/-- Python truthiness of an optional int argument. -/
def truthyInt : Option Int → Bool
  | none => false
  | some n => if n = 0 then false else true

/-- A file on disk: its (abstract) audio content and its ID3 tag set. -/
structure File where
  content : Nat
  tags : List Nat
deriving DecidableEq

/-- The filesystem: an association list from paths to files. -/
abbrev FS := List (String × File)

/-- Look up a path on the filesystem. -/
def fsGet : FS → String → Option File
  | [], _ => none
  | (q, f) :: rest, p => if q = p then some f else fsGet rest p

/-- Delete a path (all entries with that path) from the filesystem. -/
def fsRemove : FS → String → FS
  | [], _ => []
  | (q, f) :: rest, p => if q = p then fsRemove rest p else (q, f) :: fsRemove rest p

/-- Write a file at a path, overwriting whatever was there. -/
def fsWrite (fs : FS) (p : String) (f : File) : FS :=
  (p, f) :: fsRemove fs p

/-- `os.path.exists`. -/
def fsExists (fs : FS) (p : String) : Bool :=
  (fsGet fs p).isSome

/-- Observable pipeline events, in the order they are performed. -/
inductive Event where
  | convert
  | detect
  | stretchCall (args : List String)
  | exportMp3 (path : String)
  | renamed (path : String)
  | cleanup
  | copyMeta
deriving DecidableEq

/-- The opaque external collaborators of the pipeline:
`decode` is pydub decoding (`AudioSegment.from_file`, `None` meaning a decode
failure), `detect` is librosa beat tracking on a decoded waveform,
`stretchContent` is what the rubberband binary writes, `rubberbandExit` is the
exit status of the rubberband process (`none` meaning the binary is absent on
the path), and `mp3Encode` is pydub MP3 re-encoding. -/
structure Env where
  decode : Nat → Option Nat
  detect : Nat → ℚ
  stretchContent : ℚ → Nat → Nat
  rubberbandExit : Option Nat
  mp3Encode : Nat → Nat

/-- The exact argument vector passed to `subprocess.run` in
`stretchAudioWithRubberband`. -/
def rubberbandArgs (applyFactor : ℚ) (inputWav outputWav : String) : List String :=
  ["rubberband", "-t", toString applyFactor, "--pitch", "0", "--crisp", "5",
   inputWav, outputWav]

/-- `stretchAudioWithRubberband`: one synchronous `subprocess.run` call with
`check=True`.  Returns the outcome together with the argument vector of the
single invocation that was attempted.  A missing binary raises
`FileNotFoundError`; a non-zero exit status raises `CalledProcessError`. -/
def stretchAudioWithRubberband (rubberbandExit : Option Nat)
    (inputWav outputWav : String) (applyFactor : ℚ) :
    Except PyErr Unit × List String :=
  match rubberbandExit with
  | none =>
    (Except.error (PyErr.fileNotFoundError "rubberband"),
     rubberbandArgs applyFactor inputWav outputWav)
  | some 0 =>
    (Except.ok (), rubberbandArgs applyFactor inputWav outputWav)
  | some (n + 1) =>
    (Except.error (PyErr.calledProcessError (n + 1)),
     rubberbandArgs applyFactor inputWav outputWav)

/-- `copyMetadata`: `originalRead` is the outcome of `ID3(originalFile)`
(not guarded, so its failure propagates), `newRead` is the outcome of
`ID3(newFile)` inside the `try` block (its failure is swallowed and the
delete step is skipped), `newFileTags` are the tags currently on the new
file.  Returns the outcome and the final tag set on the new file. -/
def copyMetadata (originalRead : Except PyErr (List Nat))
    (newRead : Except PyErr (List Nat)) (newFileTags : List Nat) :
    Except PyErr Unit × List Nat :=
  match originalRead with
  | Except.error e => (Except.error e, newFileTags)
  | Except.ok originalTags =>
    let _tagsAfterDelete : List Nat :=
      match newRead with
      | Except.error _ => newFileTags
      | Except.ok _ => []
    (Except.ok (), originalTags)

/-- The fixed pre-stretch temp filename used by `changeBPM`. -/
def tempInp : String := "TemporalInp.wav"

/-- The fixed post-stretch temp filename used by `changeBPM`. -/
def tempOut : String := "TemporalOut.wav"

/-- The message of the `ValueError` raised when neither argument is truthy. -/
def msgNeither : String := "Either toBPM or factor must be provided."

/-- The message of the `ValueError` raised when both arguments are truthy. -/
def msgBoth : String := "Only one of toBPM or factor should be provided."

/-- The dot character used by the `.mp3` suffix and pattern. -/
def char_dot : Char := '.'

/-- `outputAudio.endswith(".mp3")`. -/
def endsWithMp3 (s : String) : Bool :=
  [char_dot, 'm', 'p', '3'].isSuffixOf s.data

/-- `changeBPM(inputAudio, outputAudio, toBPM, factor)`: the orchestrator.
Returns the outcome, the final filesystem, and the trace of pipeline events
that were performed (in order).  Faithful to the source: validation first
(Python truthiness), then convert to a temp WAV, optional BPM detection and
factor computation, the rubberband invocation, re-encode or rename to the
output path, and a cleanup step that is only reached on the success path. -/
def changeBPM (env : Env) (fs : FS) (inputAudio outputAudio : String)
    (toBPM factor : Option ℚ) : Except PyErr Unit × FS × List Event :=
  if !truthy toBPM && !truthy factor then
    (Except.error (PyErr.valueError msgNeither), fs, [])
  else if truthy toBPM && truthy factor then
    (Except.error (PyErr.valueError msgBoth), fs, [])
  else
    match fsGet fs inputAudio with
    | none => (Except.error (PyErr.fileNotFoundError inputAudio), fs, [Event.convert])
    | some inputFile =>
      match env.decode inputFile.content with
      | none => (Except.error PyErr.decodeError, fs, [Event.convert])
      | some wav =>
        let fs1 := fsWrite fs tempInp (File.mk wav [])
        let applyFactor : ℚ :=
          if truthy toBPM then env.detect wav / toBPM.getD 0 else factor.getD 0
        let tr1 : List Event :=
          if truthy toBPM then [Event.convert, Event.detect] else [Event.convert]
        let args := rubberbandArgs applyFactor tempInp tempOut
        match env.rubberbandExit with
        | none =>
          (Except.error (PyErr.fileNotFoundError "rubberband"), fs1,
           tr1 ++ [Event.stretchCall args])
        | some (n + 1) =>
          (Except.error (PyErr.calledProcessError (n + 1)), fs1,
           tr1 ++ [Event.stretchCall args])
        | some 0 =>
          let stretched := env.stretchContent applyFactor wav
          let fs2 := fsWrite fs1 tempOut (File.mk stretched [])
          let fs3 :=
            if endsWithMp3 outputAudio then
              fsWrite fs2 outputAudio (File.mk (env.mp3Encode stretched) [])
            else
              fsWrite (fsRemove fs2 tempOut) outputAudio (File.mk stretched [])
          let tr2 : List Event :=
            if endsWithMp3 outputAudio then [Event.exportMp3 outputAudio]
            else [Event.renamed outputAudio]
          let fs4 := if fsExists fs3 tempInp then fsRemove fs3 tempInp else fs3
          let fs5 := if fsExists fs4 tempOut then fsRemove fs4 tempOut else fs4
          (Except.ok (), fs5, tr1 ++ [Event.stretchCall args] ++ tr2 ++ [Event.cleanup])

/-- Python `startswith` on character lists. -/
def isPre : List Char → List Char → Bool
  | [], _ => true
  | _ :: _, [] => false
  | a :: as, b :: bs => if a = b then isPre as bs else false

/-- Fuel-driven core of Python `str.replace` for a nonempty pattern
`p :: ps`: scans left to right, replacing each non-overlapping occurrence of
the pattern with `rep`.  The fuel starts at the length of the string, which
always suffices because every step consumes at least one character. -/
def listReplaceAux (p : Char) (ps : List Char) (rep : List Char) :
    Nat → List Char → List Char
  | 0, l => l
  | _ + 1, [] => []
  | fuel + 1, c :: rest =>
    if isPre (p :: ps) (c :: rest) then
      rep ++ listReplaceAux p ps rep fuel (List.drop ps.length rest)
    else
      c :: listReplaceAux p ps rep fuel rest

/-- Python `str.replace` on character lists, for a nonempty pattern
`p :: ps`. -/
def listReplace (p : Char) (ps : List Char) (rep : List Char) (l : List Char) :
    List Char :=
  listReplaceAux p ps rep l.length l

/-- Whether the pattern occurs starting at some index `i < k` of `l`. -/
def occursBefore (pat l : List Char) (k : Nat) : Bool :=
  (List.range k).any (fun i => isPre pat (List.drop i l))

/-- Whether the pattern occurs anywhere in `l`. -/
def hasOccB (pat l : List Char) : Bool :=
  occursBefore pat l (l.length + 1)

/-- The `".mp3"` pattern as a character list. -/
def mp3Pat : List Char := [char_dot, 'm', 'p', '3']

/-- `s.replace(".mp3", rep)`: Python string replace, specialised to the fixed
`".mp3"` pattern that `main` uses. -/
def pyReplaceMp3 (s : String) (rep : String) : String :=
  String.mk (listReplace char_dot ['m', 'p', '3'] rep.data s.data)

/-- Rendering of the `bpm` argument inside the f-string
`f"_\x7bbpm\x7dBPM.mp3"`; Python prints `None` for a missing value. -/
def bpmText : Option Int → String
  | none => "None"
  | some n => toString n

/-- The output filename derived in `main`:
`inputSong.replace(".mp3", f"_\x7bbpm\x7dBPM.mp3")`. -/
def outputName (inputSong : String) (bpm : Option Int) : String :=
  pyReplaceMp3 inputSong ("_" ++ bpmText bpm ++ "BPM.mp3")

/-- `copyMetadata(originalFile, newFile)` acting on the filesystem model:
the unguarded `ID3(originalFile)` raises (propagates) when the original is
absent or carries no ID3 tag header — an empty tag set models a header-less
file, e.g. a freshly written WAV, on which mutagen raises
`ID3NoHeaderError`; the guarded read/delete on the new file is swallowed;
the final save needs the new file to be openable and overwrites its tags
with the original tag set. -/
def copyMetadataFS (fs : FS) (originalFile newFile : String) : Except PyErr FS :=
  match fsGet fs originalFile with
  | none => Except.error PyErr.id3Error
  | some orig =>
    if orig.tags = [] then Except.error PyErr.id3Error
    else
      match fsGet fs newFile with
      | none => Except.error PyErr.id3Error
      | some newF => Except.ok (fsWrite fs newFile (File.mk newF.content orig.tags))

/-- The tail of `main` after the `changeBPM` branch: propagate a failure, or
copy the metadata from the input onto the derived output. -/
def afterChangeBPM (inputSong outputSong : String) :
    Except PyErr Unit × FS × List Event → Except PyErr Unit × FS × List Event
  | (Except.error e, fs1, tr) => (Except.error e, fs1, tr)
  | (Except.ok _, fs1, tr) =>
    match copyMetadataFS fs1 inputSong outputSong with
    | Except.error e => (Except.error e, fs1, tr)
    | Except.ok fs2 => (Except.ok (), fs2, tr ++ [Event.copyMeta])

/-- `main(bpm, factor, inputSong)`: derives the output name from the input
name and the bpm, dispatches to `changeBPM` (factor branch first, then bpm
branch, else no call at all), then copies metadata. -/
def main (env : Env) (fs : FS) (bpm : Option Int) (factor : Option ℚ)
    (inputSong : String) : Except PyErr Unit × FS × List Event :=
  let outputSong := outputName inputSong bpm
  let step :=
    if truthy factor then
      changeBPM env fs inputSong outputSong none factor
    else if truthyInt bpm then
      changeBPM env fs inputSong outputSong (bpm.map fun b => (b : ℚ)) none
    else
      (Except.ok (), fs, [])
  afterChangeBPM inputSong outputSong step

/-- `os.path.join(folder, file)` for a folder without a trailing separator. -/
def osPathJoin (folder file : String) : String := folder ++ "/" ++ file

/-- The `__main__` batch loop: process the folder entries strictly in order,
calling `main(bpm=bpm, factor=None, inputSong=os.path.join(folder, file))`
for each; an uncaught error stops the loop.  Returns the outcome, the final
filesystem, and the list of entries whose processing completed. -/
def runBatch (env : Env) (folder : String) (bpm : Int) :
    FS → List String → Except PyErr Unit × FS × List String
  | fs, [] => (Except.ok (), fs, [])
  | fs, file :: rest =>
    match main env fs (some bpm) none (osPathJoin folder file) with
    | (Except.error e, fs1, _) => (Except.error e, fs1, [])
    | (Except.ok _, fs1, _) =>
      match runBatch env folder bpm fs1 rest with
      | (r, fs2, done) => (r, fs2, file :: done)

/-- A concrete environment in which every external collaborator succeeds. -/
def sampleEnv : Env :=
  ⟨fun c => some c, fun _ => 120, fun _ c => c + 1, some 0, fun c => c + 2⟩

/-- A concrete environment in which the rubberband binary is absent. -/
def failEnv : Env :=
  ⟨fun c => some c, fun _ => 120, fun _ c => c + 1, none, fun c => c + 2⟩

/-- A concrete filesystem holding one mp3 input. -/
def sampleFS : FS := [("song.mp3", File.mk 5 [1, 2])]

/-- A concrete filesystem holding one non-mp3 input. -/
def wavFS : FS := [("dir/song.wav", File.mk 5 [1])]

/-- A concrete filesystem holding a two-entry batch folder. -/
def batchFS : FS :=
  [("d/fail.mp3", File.mk 5 [1]), ("d/b.mp3", File.mk 7 [2])]

/-! ## Filesystem lemmas -/

@[simp] theorem fsGet_write_self (fs : FS) (p : String) (f : File) :
    fsGet (fsWrite fs p f) p = some f := by
  simp [fsWrite, fsGet]

theorem fsGet_remove_ne {fs : FS} {p q : String} (h : q ≠ p) :
    fsGet (fsRemove fs p) q = fsGet fs q := by
  induction fs with
  | nil => rfl
  | cons e rest ih =>
    obtain ⟨a, f⟩ := e
    by_cases hap : a = p
    · subst hap
      have haq : ¬ a = q := fun hq => h hq.symm
      simp [fsRemove, fsGet, haq, ih]
    · by_cases haq : a = q <;> simp [fsRemove, fsGet, hap, haq, h, ih]

theorem fsGet_write_ne {fs : FS} {p q : String} {f : File} (h : q ≠ p) :
    fsGet (fsWrite fs p f) q = fsGet fs q := by
  have hp : p ≠ q := fun hped => h hped.symm
  simp [fsWrite, fsGet, hp]
  exact fsGet_remove_ne h

@[simp] theorem fsGet_remove_self (fs : FS) (p : String) :
    fsGet (fsRemove fs p) p = none := by
  induction fs with
  | nil => rfl
  | cons e rest ih =>
    obtain ⟨a, f⟩ := e
    by_cases hap : a = p <;> simp [fsRemove, fsGet, hap, ih]

theorem fsExists_remove_self (fs : FS) (p : String) :
    fsExists (fsRemove fs p) p = false := by
  simp [fsExists]

theorem fsExists_remove_ne {fs : FS} {p q : String} (h : q ≠ p) :
    fsExists (fsRemove fs p) q = fsExists fs q := by
  simp [fsExists, fsGet_remove_ne h]

theorem fsExists_write_ne {fs : FS} {p q : String} {f : File} (h : q ≠ p) :
    fsExists (fsWrite fs p f) q = fsExists fs q := by
  simp [fsExists, fsGet_write_ne h]

/-! ## Truthiness lemmas -/

theorem truthy_some_of_ne (v : ℚ) (h : v ≠ 0) : truthy (some v) = true := by
  simp [truthy, h]

@[simp] theorem truthy_none : truthy none = false := rfl

theorem truthy_eq_isSome (x : Option ℚ) (hx : ∀ v, x = some v → 0 < v) :
    truthy x = x.isSome := by
  cases x with
  | none => rfl
  | some v =>
    have : v ≠ 0 := ne_of_gt (hx v rfl)
    simp [truthy, this]

theorem truthy_map_int (x : Option Int) :
    truthy (x.map fun b => (b : ℚ)) = truthyInt x := by
  cases x with
  | none => rfl
  | some n =>
    by_cases hn : n = 0
    · simp [truthy, truthyInt, hn]
    · have : ((n : ℚ)) ≠ 0 := by exact_mod_cast hn
      simp [truthy, truthyInt, hn, this]

/-! ## C6: rubberband invocation -/

/-- C6: the time stretcher performs a single synchronous `subprocess.run`
invocation of the rubberband binary with exactly the argument list
`[-t factor, --pitch 0, --crisp 5, input, output]` following the program
name, and the call succeeds exactly when the process exits with status 0:
a non-zero exit status, or an absent binary, yields a raised error (hard
failure, no retry). -/
theorem stretchAudioWithRubberband_spec (rubberbandExit : Option Nat)
    (inputWav outputWav : String) (applyFactor : ℚ) :
    (stretchAudioWithRubberband rubberbandExit inputWav outputWav applyFactor).2 =
      ["rubberband", "-t", toString applyFactor, "--pitch", "0", "--crisp", "5",
       inputWav, outputWav]
    ∧ ((stretchAudioWithRubberband rubberbandExit inputWav outputWav applyFactor).1 =
        Except.ok () ↔ rubberbandExit = some 0) := by
  constructor
  · cases rubberbandExit with
    | none => rfl
    | some n => cases n <;> rfl
  · cases rubberbandExit with
    | none => simp [stretchAudioWithRubberband]
    | some n => cases n <;> simp [stretchAudioWithRubberband]

/-! ## C7: metadata copier -/

/-- C7: a failure reading the original file tags propagates unchanged to the
caller (and the new file tags are untouched); when the original tags are
read successfully, a failure reading the new file tags is swallowed (the
delete step is a no-op and the call still succeeds), and in every successful
case the final tag set on the new file is exactly the original tag set,
overwriting whatever the new file carried. -/
theorem copyMetadata_spec :
    (∀ (e : PyErr) (newRead : Except PyErr (List Nat)) (newFileTags : List Nat),
        copyMetadata (Except.error e) newRead newFileTags =
          (Except.error e, newFileTags))
    ∧ (∀ (originalTags newFileTags : List Nat) (e : PyErr),
        copyMetadata (Except.ok originalTags) (Except.error e) newFileTags =
          (Except.ok (), originalTags))
    ∧ (∀ (originalTags newTags newFileTags : List Nat),
        copyMetadata (Except.ok originalTags) (Except.ok newTags) newFileTags =
          (Except.ok (), originalTags)) :=
  ⟨fun _ _ _ => rfl, fun _ _ _ => rfl, fun _ _ _ => rfl⟩

/-! ## Validation helper -/

/-- When exactly one of the two arguments is truthy, `changeBPM` never
raises a `ValueError` and its event trace starts with the conversion step. -/
theorem changeBPM_passes_validation (env : Env) (fs : FS) (inp outp : String)
    (toBPM factor : Option ℚ)
    (hcond : truthy toBPM = true ∧ truthy factor = false
           ∨ truthy toBPM = false ∧ truthy factor = true) :
    (∀ m, (changeBPM env fs inp outp toBPM factor).1 ≠
        Except.error (PyErr.valueError m))
    ∧ (changeBPM env fs inp outp toBPM factor).2.2.head? = some Event.convert := by
  obtain ⟨hb, hf⟩ | ⟨hb, hf⟩ := hcond <;>
  · cases hg : fsGet fs inp with
    | none => simp [changeBPM, hb, hf, hg]
    | some inputFile =>
      cases hd : env.decode inputFile.content with
      | none => simp [changeBPM, hb, hf, hg, hd]
      | some wav =>
        cases hr : env.rubberbandExit with
        | none => simp [changeBPM, hb, hf, hg, hd, hr]
        | some n =>
          cases n with
          | zero => simp [changeBPM, hb, hf, hg, hd, hr]
          | succ k => simp [changeBPM, hb, hf, hg, hd, hr]

/-! ## C1: exactly one of target BPM / factor -/

/-- C1: for valid (positive) argument values, supplying both or neither of
`toBPM`/`factor` makes `changeBPM` fail with a `ValueError` (the same error
kind in both cases) while the filesystem is untouched and the event trace is
empty (no I/O was performed); supplying exactly one is accepted: no
`ValueError` is ever raised and the pipeline proceeds to its first I/O step
(the conversion). -/
theorem changeBPM_argument_validation (env : Env) (fs : FS) (inp outp : String)
    (toBPM factor : Option ℚ)
    (hb : ∀ v, toBPM = some v → 0 < v) (hf : ∀ v, factor = some v → 0 < v) :
    ((toBPM.isSome = true ∧ factor.isSome = true) ∨ (toBPM = none ∧ factor = none) →
        ∃ m, changeBPM env fs inp outp toBPM factor =
          (Except.error (PyErr.valueError m), fs, []))
    ∧ ((toBPM.isSome = true ↔ factor = none) →
        (∀ m, (changeBPM env fs inp outp toBPM factor).1 ≠
            Except.error (PyErr.valueError m))
        ∧ (changeBPM env fs inp outp toBPM factor).2.2.head? = some Event.convert) := by
  have htb := truthy_eq_isSome toBPM hb
  have htf := truthy_eq_isSome factor hf
  constructor
  · rintro (⟨h1, h2⟩ | ⟨h1, h2⟩)
    · refine ⟨msgBoth, ?_⟩
      have hbt : truthy toBPM = true := by rw [htb, h1]
      have hft : truthy factor = true := by rw [htf, h2]
      simp [changeBPM, hbt, hft]
    · subst h1; subst h2
      exact ⟨msgNeither, rfl⟩
  · intro hxor
    apply changeBPM_passes_validation
    cases hto : toBPM with
    | some b =>
      have hfn : factor = none := hxor.mp (by rw [hto]; rfl)
      refine Or.inl ⟨truthy_some_of_ne b (ne_of_gt (hb b hto)), ?_⟩
      rw [hfn]; rfl
    | none =>
      have hne : factor ≠ none := by
        intro hfn
        have hsome := hxor.mpr hfn
        rw [hto] at hsome
        simp at hsome
      cases hfo : factor with
      | none => exact absurd hfo hne
      | some v =>
        exact Or.inr ⟨rfl, truthy_some_of_ne v (ne_of_gt (hf v hfo))⟩

/-- Witness for C1 at concrete inputs: both supplied is rejected with a
`ValueError` and no I/O; exactly one supplied is accepted. -/
theorem changeBPM_argument_validation_witness :
    (∃ m, changeBPM sampleEnv sampleFS "song.mp3" "out.mp3" (some 120) (some 2) =
        (Except.error (PyErr.valueError m), sampleFS, []))
    ∧ (∀ m, (changeBPM sampleEnv sampleFS "song.mp3" "out.mp3" (some 128) none).1 ≠
        Except.error (PyErr.valueError m)) :=
  ⟨(changeBPM_argument_validation sampleEnv sampleFS "song.mp3" "out.mp3"
      (some 120) (some 2)
      (fun v hv => by injection hv with h; subst h; norm_num)
      (fun v hv => by injection hv with h; subst h; norm_num)).1
      (Or.inl ⟨rfl, rfl⟩),
   ((changeBPM_argument_validation sampleEnv sampleFS "song.mp3" "out.mp3"
      (some 128) none
      (fun v hv => by injection hv with h; subst h; norm_num)
      (fun v hv => by simp at hv)).2 (by simp)).1⟩

/-! ## C2: temp-file cleanup -/

/-- One cleanup line: if `a` is already absent it stays absent after the
guarded removal of `b`, and `b` is always absent afterwards. -/
theorem cleanup_step (g4 : FS) (a b : String) (hab : a ≠ b)
    (h : fsExists g4 a = false) :
    fsExists (if fsExists g4 b then fsRemove g4 b else g4) a = false ∧
    fsExists (if fsExists g4 b then fsRemove g4 b else g4) b = false := by
  by_cases hb : fsExists g4 b = true
  · simp [hb, fsExists_remove_ne hab, h, fsExists_remove_self]
  · simp only [Bool.not_eq_true] at hb
    simp [hb, h]

/-- The full cleanup tail of `changeBPM`: after the two guarded removals,
neither temp file exists, whatever the filesystem looked like before. -/
theorem cleanup_both (g3 : FS) :
    fsExists (if fsExists (if fsExists g3 tempInp then fsRemove g3 tempInp else g3)
          tempOut then
        fsRemove (if fsExists g3 tempInp then fsRemove g3 tempInp else g3) tempOut
      else if fsExists g3 tempInp then fsRemove g3 tempInp else g3) tempInp = false ∧
    fsExists (if fsExists (if fsExists g3 tempInp then fsRemove g3 tempInp else g3)
          tempOut then
        fsRemove (if fsExists g3 tempInp then fsRemove g3 tempInp else g3) tempOut
      else if fsExists g3 tempInp then fsRemove g3 tempInp else g3) tempOut = false := by
  refine cleanup_step _ tempInp tempOut (by decide) ?_
  by_cases h3 : fsExists g3 tempInp = true
  · simp [h3, fsExists_remove_self]
  · simp only [Bool.not_eq_true] at h3
    simp [h3]

/-- C2 counterexample: with the rubberband binary absent from the path, the
concrete run `changeBPM("song.mp3", "song_128BPM.mp3", toBPM=128)` fails at
the stretch step and terminates with the pre-stretch temporary WAV still on
disk: cleanup is not attempted on this exit path. -/
theorem changeBPM_temp_leak_counterexample :
    changeBPM failEnv sampleFS "song.mp3" "song_128BPM.mp3" (some 128) none =
      (Except.error (PyErr.fileNotFoundError "rubberband"),
       [(tempInp, File.mk 5 []), ("song.mp3", File.mk 5 [1, 2])],
       [Event.convert, Event.detect,
        Event.stretchCall (rubberbandArgs (120 / 128) tempInp tempOut)])
    ∧ fsExists (changeBPM failEnv sampleFS "song.mp3" "song_128BPM.mp3"
        (some 128) none).2.1 tempInp = true := by
  exact ⟨rfl, rfl⟩

/-- C2 (amended): cleanup only runs on the success path.  After every
successful `changeBPM` run neither temporary WAV exists (each removal is
guarded by an existence check, so a temp already gone — e.g. consumed by the
rename branch — is silently skipped); when a step after temp creation fails,
the failure propagates without reaching the cleanup step, and the pre-stretch
temp remains on disk (see the counterexample). -/
theorem changeBPM_cleanup_on_success (env : Env) (fs : FS) (inp outp : String)
    (toBPM factor : Option ℚ) (res : Except PyErr Unit × FS × List Event)
    (hres : changeBPM env fs inp outp toBPM factor = res)
    (hok : res.1 = Except.ok ()) :
    fsExists res.2.1 tempInp = false ∧ fsExists res.2.1 tempOut = false := by
  simp only [changeBPM] at hres
  split at hres
  · subst hres; simp at hok
  · split at hres
    · subst hres; simp at hok
    · split at hres
      · subst hres; simp at hok
      · split at hres
        · subst hres; simp at hok
        · split at hres
          · subst hres; simp at hok
          · subst hres; simp at hok
          · subst hres
            exact cleanup_both _

/-- Witness for C2 (amended) at a concrete successful run. -/
theorem changeBPM_cleanup_on_success_witness :
    fsExists (changeBPM sampleEnv sampleFS "song.mp3" "song_128BPM.mp3"
        (some 128) none).2.1 tempInp = false ∧
    fsExists (changeBPM sampleEnv sampleFS "song.mp3" "song_128BPM.mp3"
        (some 128) none).2.1 tempOut = false :=
  changeBPM_cleanup_on_success sampleEnv sampleFS "song.mp3" "song_128BPM.mp3"
    (some 128) none _ rfl rfl

/-! ## C3: factor computation -/

/-- C3: once the conversion step has succeeded (the input decodes to a
waveform `wav`), a run with a target BPM and no factor performs the BPM
detection on that converted waveform and hands the stretcher exactly the
factor `detect wav / toBPM` — strictly positive whenever both BPM values
are positive; a run with a factor and no target BPM performs no detection
and hands the stretcher the supplied factor unchanged. -/
theorem changeBPM_factor_spec (env : Env) (fs : FS) (inp outp : String)
    (file : File) (wav : Nat)
    (hfile : fsGet fs inp = some file)
    (hdec : env.decode file.content = some wav) :
    (∀ b : ℚ, 0 < b →
        Event.detect ∈ (changeBPM env fs inp outp (some b) none).2.2 ∧
        Event.stretchCall (rubberbandArgs (env.detect wav / b) tempInp tempOut) ∈
          (changeBPM env fs inp outp (some b) none).2.2 ∧
        (0 < env.detect wav → 0 < env.detect wav / b))
    ∧ (∀ f : ℚ, f ≠ 0 →
        Event.detect ∉ (changeBPM env fs inp outp none (some f)).2.2 ∧
        Event.stretchCall (rubberbandArgs f tempInp tempOut) ∈
          (changeBPM env fs inp outp none (some f)).2.2) := by
  constructor
  · intro b hb
    have hbt : truthy (some b) = true := truthy_some_of_ne b (ne_of_gt hb)
    refine ⟨?_, ?_, fun hd => div_pos hd hb⟩ <;>
    · cases hr : env.rubberbandExit with
      | none => simp [changeBPM, hbt, hfile, hdec, hr]
      | some n =>
        cases n with
        | zero =>
          by_cases hm : endsWithMp3 outp = true <;>
            simp [changeBPM, hbt, hfile, hdec, hr, hm]
        | succ k => simp [changeBPM, hbt, hfile, hdec, hr]
  · intro f hf
    have hft : truthy (some f) = true := truthy_some_of_ne f hf
    constructor <;>
    · cases hr : env.rubberbandExit with
      | none => simp [changeBPM, hft, hfile, hdec, hr]
      | some n =>
        cases n with
        | zero =>
          by_cases hm : endsWithMp3 outp = true <;>
            simp [changeBPM, hft, hfile, hdec, hr, hm]
        | succ k => simp [changeBPM, hft, hfile, hdec, hr]

/-- Witness for C3 at a concrete run: target-BPM mode detects and uses
`120 / 128`; factor mode skips detection and uses the factor unchanged. -/
theorem changeBPM_factor_spec_witness :
    (Event.detect ∈
        (changeBPM sampleEnv sampleFS "song.mp3" "out.mp3" (some 128) none).2.2 ∧
      Event.stretchCall (rubberbandArgs (sampleEnv.detect 5 / 128) tempInp tempOut) ∈
        (changeBPM sampleEnv sampleFS "song.mp3" "out.mp3" (some 128) none).2.2 ∧
      (0 < sampleEnv.detect 5 → 0 < sampleEnv.detect 5 / 128)) ∧
    (Event.detect ∉
        (changeBPM sampleEnv sampleFS "song.mp3" "out.mp3" none (some 2)).2.2 ∧
      Event.stretchCall (rubberbandArgs 2 tempInp tempOut) ∈
        (changeBPM sampleEnv sampleFS "song.mp3" "out.mp3" none (some 2)).2.2) :=
  ⟨(changeBPM_factor_spec sampleEnv sampleFS "song.mp3" "out.mp3"
      (File.mk 5 [1, 2]) 5 rfl rfl).1 128 (by norm_num),
   (changeBPM_factor_spec sampleEnv sampleFS "song.mp3" "out.mp3"
      (File.mk 5 [1, 2]) 5 rfl rfl).2 2 (by norm_num)⟩

/-! ## C9: zero-valued arguments are treated as absent -/

/-- C9: `changeBPM` validates with Python truthiness, so a zero value counts
as absent: `factor = 0.0` with `toBPM = None` raises the neither-provided
`ValueError` (before any I/O), and a nonzero `toBPM` together with
`factor = 0.0` does not raise the both-provided error but behaves exactly as
if only `toBPM` had been passed. -/
theorem changeBPM_zero_factor_truthiness (env : Env) (fs : FS)
    (inp outp : String) :
    changeBPM env fs inp outp none (some 0) =
      (Except.error (PyErr.valueError msgNeither), fs, [])
    ∧ (∀ b : ℚ, b ≠ 0 →
        changeBPM env fs inp outp (some b) (some 0) =
          changeBPM env fs inp outp (some b) none) := by
  constructor
  · rfl
  · intro b hb
    simp [changeBPM, truthy, hb]

/-- Witness for C9 at concrete inputs. -/
theorem changeBPM_zero_factor_truthiness_witness :
    (128 : ℚ) ≠ 0 ∧
      changeBPM sampleEnv sampleFS "song.mp3" "song_128BPM.mp3" (some 128) (some 0) =
        changeBPM sampleEnv sampleFS "song.mp3" "song_128BPM.mp3" (some 128) none :=
  ⟨by norm_num,
   (changeBPM_zero_factor_truthiness sampleEnv sampleFS "song.mp3"
       "song_128BPM.mp3").2 128 (by norm_num)⟩

/-! ## C10: main prefers the factor branch -/

/-- `copyMetadataFS` only ever fails with the ID3 error. -/
theorem copyMetadataFS_error (fs : FS) (o n : String) (e : PyErr)
    (h : copyMetadataFS fs o n = Except.error e) : e = PyErr.id3Error := by
  unfold copyMetadataFS at h
  split at h
  · injection h with h'; exact h'.symm
  · split at h
    · injection h with h'; exact h'.symm
    · split at h
      · injection h with h'; exact h'.symm
      · cases h

/-- The metadata tail of `main` never introduces a `ValueError`: it either
propagates the step outcome or fails with the ID3 error. -/
theorem afterChangeBPM_no_valueError (i o : String)
    (t : Except PyErr Unit × FS × List Event) (m : String)
    (h : ∀ mm, t.1 ≠ Except.error (PyErr.valueError mm)) :
    (afterChangeBPM i o t).1 ≠ Except.error (PyErr.valueError m) := by
  rcases t with ⟨r, fs1, tr⟩
  cases r with
  | error e => simpa [afterChangeBPM] using h m
  | ok u =>
    cases u
    cases hcm : copyMetadataFS fs1 i o with
    | error e2 =>
      have he2 : e2 = PyErr.id3Error := copyMetadataFS_error fs1 i o e2 hcm
      subst he2
      simp [afterChangeBPM, hcm]
    | ok fs2 => simp [afterChangeBPM, hcm]

/-- C10: `main` checks the factor branch first, so with both a truthy bpm
and a truthy factor it invokes `changeBPM` with the factor only
(`toBPM = None`); consequently no call routed through `main` can ever
trigger the both-provided `ValueError` of `changeBPM` (in fact `main` never
produces any `ValueError`). -/
theorem main_factor_precedence (env : Env) (fs : FS) (bpm : Option Int)
    (factor : Option ℚ) (inp : String) :
    (∀ m, (main env fs bpm factor inp).1 ≠ Except.error (PyErr.valueError m))
    ∧ (truthy factor = true →
        main env fs bpm factor inp =
          afterChangeBPM inp (outputName inp bpm)
            (changeBPM env fs inp (outputName inp bpm) none factor)) := by
  constructor
  · intro m
    by_cases hft : truthy factor = true
    · have hmain : main env fs bpm factor inp =
          afterChangeBPM inp (outputName inp bpm)
            (changeBPM env fs inp (outputName inp bpm) none factor) := by
        simp [main, hft]
      rw [hmain]
      exact afterChangeBPM_no_valueError _ _ _ m
        ((changeBPM_passes_validation env fs inp (outputName inp bpm) none factor
          (Or.inr ⟨rfl, hft⟩)).1)
    · have hft' : truthy factor = false := by simpa using hft
      by_cases hbt : truthyInt bpm = true
      · have hmap : truthy (bpm.map fun b => (b : ℚ)) = true := by
          rw [truthy_map_int]; exact hbt
        have hmain : main env fs bpm factor inp =
            afterChangeBPM inp (outputName inp bpm)
              (changeBPM env fs inp (outputName inp bpm)
                (bpm.map fun b => (b : ℚ)) none) := by
          simp [main, hft', hbt]
        rw [hmain]
        exact afterChangeBPM_no_valueError _ _ _ m
          ((changeBPM_passes_validation env fs inp (outputName inp bpm)
            (bpm.map fun b => (b : ℚ)) none (Or.inl ⟨hmap, rfl⟩)).1)
      · have hbt' : truthyInt bpm = false := by simpa using hbt
        have hmain : main env fs bpm factor inp =
            afterChangeBPM inp (outputName inp bpm) (Except.ok (), fs, []) := by
          simp [main, hft', hbt']
        rw [hmain]
        exact afterChangeBPM_no_valueError _ _ _ m (by intro mm; simp)
  · intro hft
    simp [main, hft]

/-- Witness for C10: with bpm 128 and factor 2 both truthy, `main` routes to
the factor-only `changeBPM` call. -/
theorem main_factor_precedence_witness :
    truthy (some 2) = true ∧
      main sampleEnv sampleFS (some 128) (some 2) "song.mp3" =
        afterChangeBPM "song.mp3" (outputName "song.mp3" (some 128))
          (changeBPM sampleEnv sampleFS "song.mp3"
            (outputName "song.mp3" (some 128)) none (some 2)) :=
  ⟨by decide,
   (main_factor_precedence sampleEnv sampleFS (some 128) (some 2) "song.mp3").2
     (by decide)⟩

/-! ## C5: output filename derivation -/

theorem isPre_self (l : List Char) : isPre l l = true := by
  induction l with
  | nil => rfl
  | cons c rest ih => simp [isPre, ih]

theorem listReplaceAux_nil (p : Char) (ps rep : List Char) (fuel : Nat) :
    listReplaceAux p ps rep fuel [] = [] := by
  cases fuel <;> rfl

theorem isPre_eq_false_of_occursBefore (pat l : List Char) (k : Nat)
    (h : occursBefore pat l k = false) :
    ∀ i < k, isPre pat (List.drop i l) = false := by
  intro i hik
  by_contra hc
  simp only [Bool.not_eq_false] at hc
  have ht : occursBefore pat l k = true := by
    unfold occursBefore
    exact List.any_eq_true.mpr ⟨i, List.mem_range.mpr hik, hc⟩
  rw [ht] at h
  cases h

theorem no_occ_forall (p : Char) (ps l : List Char)
    (h : hasOccB (p :: ps) l = false) :
    ∀ i, isPre (p :: ps) (List.drop i l) = false := by
  intro i
  by_cases hi : i < l.length + 1
  · exact isPre_eq_false_of_occursBefore (p :: ps) l (l.length + 1) h i hi
  · have hnil : List.drop i l = [] := List.drop_eq_nil_of_le (by omega)
    rw [hnil]
    rfl

theorem listReplaceAux_no_occ (p : Char) (ps rep : List Char) :
    ∀ (fuel : Nat) (l : List Char),
      (∀ i, isPre (p :: ps) (List.drop i l) = false) →
      listReplaceAux p ps rep fuel l = l := by
  intro fuel
  induction fuel with
  | zero => intro l _; rfl
  | succ n ih =>
    intro l hocc
    cases l with
    | nil => rfl
    | cons c rest =>
      have h0 := hocc 0
      simp only [List.drop_zero] at h0
      simp only [listReplaceAux, h0, Bool.false_eq_true, if_false]
      congr 1
      refine ih rest fun i => ?_
      have := hocc (i + 1)
      simpa [List.drop_succ_cons] using this

theorem listReplaceAux_single_suffix (p : Char) (ps rep : List Char) :
    ∀ (fuel : Nat) (stem : List Char),
      (stem ++ p :: ps).length ≤ fuel →
      (∀ i < stem.length, isPre (p :: ps) (List.drop i (stem ++ p :: ps)) = false) →
      listReplaceAux p ps rep fuel (stem ++ p :: ps) = stem ++ rep := by
  intro fuel
  induction fuel with
  | zero =>
    intro stem hlen _
    exfalso
    simp [List.length_append] at hlen
  | succ n ih =>
    intro stem hlen hocc
    cases stem with
    | nil =>
      simp only [List.nil_append, listReplaceAux, isPre_self, if_true]
      rw [List.drop_length, listReplaceAux_nil]
      simp
    | cons c stem' =>
      have h0 := hocc 0 (by simp)
      rw [List.drop_zero, List.cons_append] at h0
      rw [List.cons_append]
      simp only [listReplaceAux]
      rw [if_neg (by rw [h0]; simp)]
      rw [List.cons_append]
      congr 1
      refine ih stem' ?_ fun i hi => ?_
      · simp only [List.length_append, List.length_cons] at hlen ⊢
        omega
      · have := hocc (i + 1) (by simp only [List.length_cons]; omega)
        simpa [List.cons_append, List.drop_succ_cons] using this

/-- C5: the batch driver derives the output name by the Python replace
`inputSong.replace(".mp3", "_<bpm>BPM.mp3")`: for an input `stem ++ ".mp3"`
whose stem contains no earlier occurrence of `".mp3"`, the derived name is
exactly `stem ++ "_<bpm>BPM.mp3"` (the tag inserted before the extension,
a sibling in the same folder since the directory prefix is untouched); for
an input containing no `".mp3"` at all the derivation silently does nothing
and the derived name equals the input name. -/
theorem outputName_spec (bpm : Int) :
    (∀ stem : List Char,
        occursBefore mp3Pat (stem ++ mp3Pat) stem.length = false →
        outputName (String.mk (stem ++ mp3Pat)) (some bpm) =
          String.mk (stem ++ ("_" ++ toString bpm ++ "BPM.mp3").data))
    ∧ (∀ s : String, hasOccB mp3Pat s.data = false →
        outputName s (some bpm) = s) := by
  constructor
  · intro stem h
    have hocc := isPre_eq_false_of_occursBefore mp3Pat (stem ++ mp3Pat)
      stem.length h
    unfold outputName pyReplaceMp3 listReplace
    congr 1
    exact listReplaceAux_single_suffix char_dot ['m', 'p', '3'] _ _ stem
      le_rfl hocc
  · intro s h
    have hocc := no_occ_forall char_dot ['m', 'p', '3'] s.data h
    unfold outputName pyReplaceMp3 listReplace
    rw [listReplaceAux_no_occ char_dot ['m', 'p', '3'] _ _ s.data hocc]

/-- Witness for C5 at concrete names: `song.mp3` maps to `song_128BPM.mp3`
and the non-mp3 name `track.wav` is unchanged. -/
theorem outputName_spec_witness :
    (occursBefore mp3Pat ("song".data ++ mp3Pat) ("song".data.length) = false ∧
      outputName (String.mk ("song".data ++ mp3Pat)) (some 128) =
        String.mk ("song".data ++ ("_" ++ toString (128 : Int) ++ "BPM.mp3").data)) ∧
    (hasOccB mp3Pat ("track.wav" : String).data = false ∧
      outputName "track.wav" (some 128) = "track.wav") :=
  ⟨⟨by decide, (outputName_spec 128).1 "song".data (by decide)⟩,
   ⟨by decide, (outputName_spec 128).2 "track.wav" (by decide)⟩⟩

/-! ## C4: the input file is (usually) left untouched -/

/-- A successful `copyMetadataFS` only writes at the new-file path. -/
theorem copyMetadataFS_ok (fs : FS) (o n : String) (res : FS)
    (h : copyMetadataFS fs o n = Except.ok res) :
    ∃ g, res = fsWrite fs n g := by
  unfold copyMetadataFS at h
  split at h
  · cases h
  · split at h
    · cases h
    · split at h
      · cases h
      · injection h with h'
        exact ⟨_, h'.symm⟩

/-- `changeBPM` never touches a path other than the two temp names and the
output path: any other path maps to the same file before and after, on all
exit paths. -/
theorem changeBPM_fsGet_other (env : Env) (fs : FS) (inp outp q : String)
    (toBPM factor : Option ℚ) (res : Except PyErr Unit × FS × List Event)
    (hres : changeBPM env fs inp outp toBPM factor = res)
    (hq1 : q ≠ tempInp) (hq2 : q ≠ tempOut) (hq3 : q ≠ outp) :
    fsGet res.2.1 q = fsGet fs q := by
  simp only [changeBPM] at hres
  split at hres
  · subst hres; rfl
  · split at hres
    · subst hres; rfl
    · split at hres
      · subst hres; rfl
      · split at hres
        · subst hres; rfl
        · split at hres
          · subst hres
            simp [fsGet_write_ne hq1]
          · subst hres
            simp [fsGet_write_ne hq1]
          · subst hres
            repeat' split
            all_goals
              simp [fsGet_write_ne hq1, fsGet_write_ne hq2, fsGet_write_ne hq3,
                fsGet_remove_ne hq1, fsGet_remove_ne hq2]

/-- On a successful `changeBPM` run whose output path is distinct from both
temp names, the output file exists afterwards. -/
theorem changeBPM_output_exists (env : Env) (fs : FS) (inp outp : String)
    (toBPM factor : Option ℚ) (res : Except PyErr Unit × FS × List Event)
    (hres : changeBPM env fs inp outp toBPM factor = res)
    (hok : res.1 = Except.ok ())
    (h1 : outp ≠ tempInp) (h2 : outp ≠ tempOut) :
    fsExists res.2.1 outp = true := by
  simp only [changeBPM] at hres
  split at hres
  · subst hres; simp at hok
  · split at hres
    · subst hres; simp at hok
    · split at hres
      · subst hres; simp at hok
      · split at hres
        · subst hres; simp at hok
        · split at hres
          · subst hres; simp at hok
          · subst hres; simp at hok
          · subst hres
            repeat' split
            all_goals
              simp [fsExists, fsGet_remove_ne h1, fsGet_remove_ne h2,
                fsGet_write_self]

/-- The metadata tail of `main` leaves any path other than the output
untouched, and on overall success the output path exists. -/
theorem afterChangeBPM_props (i o : String) (fs : FS)
    (t : Except PyErr Unit × FS × List Event)
    (hio : i ≠ o) (hpre : fsGet t.2.1 i = fsGet fs i) :
    fsGet (afterChangeBPM i o t).2.1 i = fsGet fs i
    ∧ ((afterChangeBPM i o t).1 = Except.ok () →
        fsExists (afterChangeBPM i o t).2.1 o = true) := by
  rcases t with ⟨r, fs1, tr⟩
  cases r with
  | error e =>
    refine ⟨hpre, fun hok => ?_⟩
    simp [afterChangeBPM] at hok
  | ok u =>
    cases u
    cases hcm : copyMetadataFS fs1 i o with
    | error e2 =>
      refine ⟨by simpa [afterChangeBPM, hcm] using hpre, fun hok => ?_⟩
      simp [afterChangeBPM, hcm] at hok
    | ok fs2 =>
      obtain ⟨g, rfl⟩ := copyMetadataFS_ok fs1 i o fs2 hcm
      constructor
      · simp only [afterChangeBPM, hcm]
        rw [fsGet_write_ne hio]
        exact hpre
      · intro _
        simp [afterChangeBPM, hcm, fsExists, fsGet_write_self]

/-- C4 counterexample: for the non-mp3 input `dir/song.wav` the derived
output name equals the input name and the run mutates the original input
file in place — the rename step overwrites it with the stretched WAV
(content and tags change) instead of writing a new distinct file — after
which the unguarded metadata read on the overwritten, header-less file
aborts the run with the ID3 error. -/
theorem main_overwrites_nonmp3_counterexample :
    outputName "dir/song.wav" (some 128) = "dir/song.wav" ∧
    fsGet (main sampleEnv wavFS (some 128) none "dir/song.wav").2.1
        "dir/song.wav" ≠ fsGet wavFS "dir/song.wav" ∧
    (main sampleEnv wavFS (some 128) none "dir/song.wav").1 =
      Except.error PyErr.id3Error :=
  ⟨rfl, by decide, rfl⟩

/-- C4 (amended): whenever the derived output name differs from the input
path and the input does not collide with the two fixed temp names, the
original input file is left untouched by `main` — same content and tags
before and after, on success and failure alike — and on success the output
is written at the (distinct, new) derived path.  For a non-mp3 input the
derived name equals the input name and the run overwrites the input in
place (see the counterexample). -/
theorem main_input_untouched (env : Env) (fs : FS) (bpm : Option Int)
    (factor : Option ℚ) (inp : String)
    (h1 : outputName inp bpm ≠ inp)
    (h2 : inp ≠ tempInp) (h3 : inp ≠ tempOut) :
    fsGet (main env fs bpm factor inp).2.1 inp = fsGet fs inp
    ∧ ((main env fs bpm factor inp).1 = Except.ok () →
        fsExists (main env fs bpm factor inp).2.1 (outputName inp bpm) = true) := by
  by_cases hft : truthy factor = true
  · have hmain : main env fs bpm factor inp =
        afterChangeBPM inp (outputName inp bpm)
          (changeBPM env fs inp (outputName inp bpm) none factor) := by
      simp [main, hft]
    rw [hmain]
    exact afterChangeBPM_props inp (outputName inp bpm) fs _ (Ne.symm h1)
      (changeBPM_fsGet_other env fs inp (outputName inp bpm) inp none factor _
        rfl h2 h3 (Ne.symm h1))
  · have hft' : truthy factor = false := by simpa using hft
    by_cases hbt : truthyInt bpm = true
    · have hmain : main env fs bpm factor inp =
          afterChangeBPM inp (outputName inp bpm)
            (changeBPM env fs inp (outputName inp bpm)
              (bpm.map fun b => (b : ℚ)) none) := by
        simp [main, hft', hbt]
      rw [hmain]
      exact afterChangeBPM_props inp (outputName inp bpm) fs _ (Ne.symm h1)
        (changeBPM_fsGet_other env fs inp (outputName inp bpm) inp
          (bpm.map fun b => (b : ℚ)) none _ rfl h2 h3 (Ne.symm h1))
    · have hbt' : truthyInt bpm = false := by simpa using hbt
      have hmain : main env fs bpm factor inp =
          afterChangeBPM inp (outputName inp bpm) (Except.ok (), fs, []) := by
        simp [main, hft', hbt']
      rw [hmain]
      exact afterChangeBPM_props inp (outputName inp bpm) fs _ (Ne.symm h1) rfl

/-- Witness for C4 (amended) at the concrete mp3 input `song.mp3`. -/
theorem main_input_untouched_witness :
    fsGet (main sampleEnv sampleFS (some 128) none "song.mp3").2.1 "song.mp3" =
        fsGet sampleFS "song.mp3"
    ∧ ((main sampleEnv sampleFS (some 128) none "song.mp3").1 = Except.ok () →
        fsExists (main sampleEnv sampleFS (some 128) none "song.mp3").2.1
          (outputName "song.mp3" (some 128)) = true) :=
  main_input_untouched sampleEnv sampleFS (some 128) none "song.mp3"
    (by decide) (by decide) (by decide)

/-! ## C8: batch processing is sequential and aborts on first error -/

/-- C8: the batch loop handles the folder entries strictly in order, one
completing before the next starts; if every entry before `x` completes and
processing `x` raises, the batch terminates with exactly that error, the
completed entries are exactly the prefix before `x`, and the entries after
`x` are never processed (the result does not depend on them at all). -/
theorem runBatch_sequential_abort (env : Env) (folder : String) (bpm : Int)
    (fs fs1 fs2 : FS) (pre : List String) (x : String) (e : PyErr)
    (p1 : List String) (tr : List Event) (post : List String)
    (h1 : runBatch env folder bpm fs pre = (Except.ok (), fs1, p1))
    (h2 : main env fs1 (some bpm) none (osPathJoin folder x) =
        (Except.error e, fs2, tr)) :
    runBatch env folder bpm fs (pre ++ x :: post) = (Except.error e, fs2, p1) := by
  induction pre generalizing fs p1 with
  | nil =>
    simp only [runBatch, Prod.mk.injEq, true_and] at h1
    obtain ⟨hfs, hp⟩ := h1
    subst hfs
    subst hp
    simp [runBatch, h2]
  | cons f rest ih =>
    simp only [runBatch] at h1
    rcases hm : main env fs (some bpm) none (osPathJoin folder f) with ⟨r, fsa, tra⟩
    rw [hm] at h1
    cases r with
    | error e0 => simp at h1
    | ok u =>
      cases u
      rcases hrb : runBatch env folder bpm fsa rest with ⟨r2, fsb, ps⟩
      simp only [hrb, Prod.mk.injEq] at h1
      obtain ⟨hr2, hfsb, hps⟩ := h1
      subst hr2
      subst hfsb
      subst hps
      simp [runBatch, hm, ih fsa ps hrb]

/-- Witness for C8 at a concrete two-entry batch whose first entry fails
(absent rubberband binary): the batch stops with that error and the second
entry is never processed. -/
theorem runBatch_sequential_abort_witness :
    runBatch failEnv "d" 128 batchFS ["fail.mp3", "b.mp3"] =
      (Except.error (PyErr.fileNotFoundError "rubberband"),
       fsWrite batchFS tempInp (File.mk 5 []), []) :=
  runBatch_sequential_abort failEnv "d" 128 batchFS batchFS
    (fsWrite batchFS tempInp (File.mk 5 [])) [] "fail.mp3"
    (PyErr.fileNotFoundError "rubberband") []
    [Event.convert, Event.detect,
     Event.stretchCall (rubberbandArgs (120 / 128) tempInp tempOut)]
    ["b.mp3"] rfl rfl

end BPMorph
